import Mathlib

/-!
Verification of the k6 `lib/netext` tracer (src/lib/netext/tracer.go).

The Go `Tracer` records one int64 UnixNano timestamp per HTTP lifecycle
event (0 is the "unset" sentinel), accumulates errors from the
connect/handshake/write hooks, and `Done` derives an immutable `Trail`
with per-phase durations. We embed the state as a Lean structure; each
hook becomes a state-transition function that takes the wall-clock value
`now()` would have returned as an explicit argument, since the clock is
the only effect. Errors are modelled as strings (Go `error` is opaque to
this code: it is only appended to a list). Timestamps are `Int`.
-/

/-- Errors are opaque values for the tracer; it only stores them. -/
abbrev Err := String

/-- A network endpoint identifier (Go `net.Addr` is opaque to this code). -/
abbrev Addr := String

/-- Trail (tracer.go lines 37-54): detailed information about an HTTP
request. Times are UnixNano `Int`s, durations are nanosecond `Int`s. -/
structure Trail where
  startTime : Int
  endTime : Int
  duration : Int
  blocked : Int
  connecting : Int
  tlsHandshaking : Int
  sending : Int
  waiting : Int
  receiving : Int
  connReused : Bool
  connRemoteAddr : Option Addr

/-- Tracer state (tracer.go lines 75-90). Go zero-initialises every
field: timestamps to the unset sentinel 0, `connReused` to false,
`connRemoteAddr` to nil and `protoErrors` to the empty slice. -/
structure Tracer where
  getConn : Int := 0
  connectStart : Int := 0
  connectDone : Int := 0
  tlsHandshakeStart : Int := 0
  tlsHandshakeDone : Int := 0
  gotConn : Int := 0
  wroteRequest : Int := 0
  gotFirstResponseByte : Int := 0
  connReused : Bool := false
  connRemoteAddr : Option Addr := none
  protoErrors : List Err := []

/-- The zero-value Tracer a fresh request starts from. -/
def Tracer.init : Tracer := {}

/-- addError (tracer.go lines 107-111): append an error to the shared
collection. The Go mutex serialises concurrent appends; sequentially the
operation is a list append. -/
def Tracer.addError (t : Tracer) (err : Err) : Tracer :=
  { t with protoErrors := t.protoErrors ++ [err] }

/-- GetConn (tracer.go lines 125-127): unconditionally store `now()`. -/
def Tracer.GetConn (t : Tracer) (tnow : Int) : Tracer :=
  { t with getConn := tnow }

/-- ConnectStart (tracer.go lines 135-140): the atomic CompareAndSwap
from 0 stores `now()` only if the field is still unset. -/
def Tracer.ConnectStart (t : Tracer) (tnow : Int) : Tracer :=
  { t with connectStart := if t.connectStart = 0 then tnow else t.connectStart }

/-- ConnectDone (tracer.go lines 151-160): CompareAndSwap from 0, then
record a non-nil error. -/
def Tracer.ConnectDone (t : Tracer) (tnow : Int) (err : Option Err) : Tracer :=
  let t1 := { t with connectDone := if t.connectDone = 0 then tnow else t.connectDone }
  match err with
  | some e => t1.addError e
  | none => t1

/-- TLSHandshakeStart (tracer.go lines 168-172): unconditional store. -/
def Tracer.TLSHandshakeStart (t : Tracer) (tnow : Int) : Tracer :=
  { t with tlsHandshakeStart := tnow }

/-- TLSHandshakeDone (tracer.go lines 180-188): unconditional store,
then record a non-nil error. -/
def Tracer.TLSHandshakeDone (t : Tracer) (tnow : Int) (err : Option Err) : Tracer :=
  let t1 := { t with tlsHandshakeDone := tnow }
  match err with
  | some e => t1.addError e
  | none => t1

/-- The payload of Go `httptrace.GotConnInfo` that GotConn reads:
`info.Reused` and `info.Conn.RemoteAddr()`. -/
structure GotConnInfo where
  reused : Bool
  remoteAddr : Addr

/-- GotConn (tracer.go lines 197-210): unconditionally store `now()`,
the reuse flag and the remote address; for a reused connection,
CompareAndSwap connectStart and connectDone from 0 to the same `now()`. -/
def Tracer.GotConn (t : Tracer) (tnow : Int) (info : GotConnInfo) : Tracer :=
  let t1 := { t with gotConn := tnow, connReused := info.reused,
                     connRemoteAddr := some info.remoteAddr }
  if t1.connReused then
    { t1 with connectStart := if t1.connectStart = 0 then tnow else t1.connectStart,
              connectDone := if t1.connectDone = 0 then tnow else t1.connectDone }
  else t1

/-- WroteRequest (tracer.go lines 217-223): CompareAndSwap from 0, then
record a non-nil error. -/
def Tracer.WroteRequest (t : Tracer) (tnow : Int) (err : Option Err) : Tracer :=
  let t1 := { t with wroteRequest := if t.wroteRequest = 0 then tnow else t.wroteRequest }
  match err with
  | some e => t1.addError e
  | none => t1

/-- GotFirstResponseByte (tracer.go lines 227-231): unconditional store. -/
def Tracer.GotFirstResponseByte (t : Tracer) (tnow : Int) : Tracer :=
  { t with gotFirstResponseByte := tnow }

/-- Blocked as computed by Done (tracer.go lines 242-244): set only when
both gotConn and getConn are set, else it stays at its zero value. -/
def Tracer.blockedD (t : Tracer) : Int :=
  if t.gotConn ≠ 0 ∧ t.getConn ≠ 0 then t.gotConn - t.getConn else 0

/-- Connecting as computed by Done (tracer.go lines 245-247). -/
def Tracer.connectingD (t : Tracer) : Int :=
  if t.connectDone ≠ 0 ∧ t.connectStart ≠ 0 then t.connectDone - t.connectStart else 0

/-- TLSHandshaking as computed by Done (tracer.go lines 248-250). -/
def Tracer.tlsHandshakingD (t : Tracer) : Int :=
  if t.tlsHandshakeDone ≠ 0 ∧ t.tlsHandshakeStart ≠ 0 then
    t.tlsHandshakeDone - t.tlsHandshakeStart
  else 0

/-- Sending as computed by Done (tracer.go lines 251-257): inside the
`wroteRequest != 0` guard, first `wroteRequest - connectDone`, then
overwritten with `wroteRequest - tlsHandshakeDone` when the latter is
set. Note the Go code does not test whether connectDone is set. -/
def Tracer.sendingD (t : Tracer) : Int :=
  if t.wroteRequest ≠ 0 then
    if t.tlsHandshakeDone ≠ 0 then t.wroteRequest - t.tlsHandshakeDone
    else t.wroteRequest - t.connectDone
  else 0

/-- Waiting as computed by Done (tracer.go lines 259-261): nested inside
the `wroteRequest != 0` guard. -/
def Tracer.waitingD (t : Tracer) : Int :=
  if t.wroteRequest ≠ 0 then
    if t.gotFirstResponseByte ≠ 0 then t.gotFirstResponseByte - t.wroteRequest else 0
  else 0

/-- Receiving as computed by Done (tracer.go lines 263-265):
`done.Sub(time.Unix(0, t.gotFirstResponseByte))` is the difference of
the two UnixNano values. -/
def Tracer.receivingD (t : Tracer) (done : Int) : Int :=
  if t.gotFirstResponseByte ≠ 0 then done - t.gotFirstResponseByte else 0

/-- Duration as computed by Done (tracer.go line 269). -/
def Tracer.durationD (t : Tracer) (done : Int) : Int :=
  t.sendingD + t.waitingD + t.receivingD done

/-- Done (tracer.go lines 234-273): capture `done = time.Now()` (passed
explicitly) and assemble the Trail. Each field equals the value the Go
code's sequence of conditional assignments leaves in the
zero-initialised Trail. -/
def Tracer.Done (t : Tracer) (done : Int) : Trail :=
  { startTime := done - t.durationD done
    endTime := done
    duration := t.durationD done
    blocked := t.blockedD
    connecting := t.connectingD
    tlsHandshaking := t.tlsHandshakingD
    sending := t.sendingD
    waiting := t.waitingD
    receiving := t.receivingD done
    connReused := t.connReused
    connRemoteAddr := t.connRemoteAddr }

/-- C1: for every recorder state and every completion time, the Trail
returned by Done satisfies Duration = Sending + Waiting + Receiving
exactly; unobserved phases enter the sum as zero. -/
theorem duration_additive (t : Tracer) (d : Int) :
    (t.Done d).duration = (t.Done d).sending + (t.Done d).waiting + (t.Done d).receiving :=
  rfl

/-- C6: for every recorder state, the Trail returned by Done satisfies
StartTime = EndTime - Duration; and when no events fired at all (the
zero-value recorder), every phase duration and Duration are zero and
StartTime equals EndTime. -/
theorem startTime_endTime_duration (t : Tracer) (d : Int) :
    (t.Done d).startTime = (t.Done d).endTime - (t.Done d).duration ∧
    ((Tracer.init.Done d).blocked = 0 ∧ (Tracer.init.Done d).connecting = 0 ∧
      (Tracer.init.Done d).tlsHandshaking = 0 ∧ (Tracer.init.Done d).sending = 0 ∧
      (Tracer.init.Done d).waiting = 0 ∧ (Tracer.init.Done d).receiving = 0 ∧
      (Tracer.init.Done d).duration = 0 ∧
      (Tracer.init.Done d).startTime = (Tracer.init.Done d).endTime) := by
  refine ⟨rfl, ?_⟩
  simp [Tracer.Done, Tracer.init, Tracer.blockedD, Tracer.connectingD,
    Tracer.tlsHandshakingD, Tracer.sendingD, Tracer.waitingD, Tracer.receivingD,
    Tracer.durationD]

/-- Recorder state in which only WroteRequest ever fired (at time 5):
request-written is set while both of sending's base inputs, tls-done and
connect-done, are still unset. -/
def onlyWrote : Tracer := Tracer.init.WroteRequest 5 none

/-- C2 counterexample: with request-written set to 5 and both tls-done
and connect-done unset, Done leaves Sending at 5, not 0 — the claimed
clamp to zero when the needed base input is unset does not happen. -/
theorem sending_clamp_cex :
    onlyWrote.wroteRequest ≠ 0 ∧ onlyWrote.tlsHandshakeDone = 0 ∧
    onlyWrote.connectDone = 0 ∧ (onlyWrote.Done 10).sending = 5 ∧
    (onlyWrote.Done 10).sending ≠ 0 := by decide

/-- C2 amended: whenever request-written is set, Done computes Sending
as request-written minus base, where base is tls-done if tls-done is set
and the stored connect-done value otherwise; when connect-done is also
unset the base is the sentinel 0, so Sending equals the raw
request-written timestamp rather than clamping to zero. -/
theorem sending_base_amended (t : Tracer) (d : Int) (h : t.wroteRequest ≠ 0) :
    (t.Done d).sending =
      t.wroteRequest -
        (if t.tlsHandshakeDone ≠ 0 then t.tlsHandshakeDone else t.connectDone) := by
  by_cases htls : t.tlsHandshakeDone = 0 <;>
    simp [Tracer.Done, Tracer.sendingD, h, htls]

/-- Witness for C2 at the concrete onlyWrote state and done = 10. -/
theorem sending_base_amended_witness :
    (onlyWrote.Done 10).sending =
      onlyWrote.wroteRequest -
        (if onlyWrote.tlsHandshakeDone ≠ 0 then onlyWrote.tlsHandshakeDone
          else onlyWrote.connectDone) :=
  sending_base_amended onlyWrote 10 (by decide)

/-- C4: if GotConn reports a reused connection while connect-started and
connect-done are still unset, both are synthesized equal to the
connection-obtained time, and the Trail returned by Done (at any
completion time) has Connecting = 0. -/
theorem gotConn_reused_synthesizes (t : Tracer) (tnow : Int) (info : GotConnInfo)
    (hr : info.reused = true) (hcs : t.connectStart = 0) (hcd : t.connectDone = 0) :
    (t.GotConn tnow info).connectStart = tnow ∧
    (t.GotConn tnow info).connectDone = tnow ∧
    ∀ d : Int, ((t.GotConn tnow info).Done d).connecting = 0 := by
  refine ⟨?_, ?_, fun d => ?_⟩ <;>
    simp [Tracer.GotConn, Tracer.Done, Tracer.connectingD, hr, hcs, hcd]

/-- Witness for C4: a reused connection obtained at time 5 on the fresh
recorder synthesizes both dial timestamps to 5 and yields Connecting = 0. -/
theorem gotConn_reused_synthesizes_witness :
    (Tracer.init.GotConn 5 ⟨true, "addr"⟩).connectStart = 5 ∧
    (Tracer.init.GotConn 5 ⟨true, "addr"⟩).connectDone = 5 ∧
    ((Tracer.init.GotConn 5 ⟨true, "addr"⟩).Done 9).connecting = 0 := by
  have h := gotConn_reused_synthesizes Tracer.init 5 ⟨true, "addr"⟩ rfl rfl rfl
  exact ⟨h.1, h.2.1, h.2.2 9⟩

/-- C5: for the duplicate-eligible fields (connect-started, connect-done,
request-written) the first call's timestamp wins: a second call with any
other time leaves the stored value from the first call, the derived
Connecting phase uses the first connect-started value, and once set each
field is never changed by a further call. -/
theorem first_write_wins (t : Tracer) (ta tb tc d : Int) (e1 e2 : Option Err)
    (hcs : t.connectStart = 0) (hcd : t.connectDone = 0) (hwr : t.wroteRequest = 0)
    (ha : ta ≠ 0) (hc : tc ≠ 0) :
    ((t.ConnectStart ta).ConnectStart tb).connectStart = ta ∧
    ((t.ConnectDone ta e1).ConnectDone tb e2).connectDone = ta ∧
    ((t.WroteRequest ta e1).WroteRequest tb e2).wroteRequest = ta ∧
    ((((t.ConnectStart ta).ConnectStart tb).ConnectDone tc e1).Done d).connecting = tc - ta ∧
    (∀ s : Tracer, s.connectStart ≠ 0 → (s.ConnectStart tb).connectStart = s.connectStart) ∧
    (∀ s : Tracer, s.connectDone ≠ 0 → (s.ConnectDone tb e2).connectDone = s.connectDone) ∧
    (∀ s : Tracer, s.wroteRequest ≠ 0 → (s.WroteRequest tb e2).wroteRequest = s.wroteRequest) := by
  refine ⟨?_, ?_, ?_, ?_, ?_, ?_, ?_⟩
  · simp [Tracer.ConnectStart, hcs, ha]
  · cases e1 <;> cases e2 <;>
      simp [Tracer.ConnectDone, Tracer.addError, hcd, ha]
  · cases e1 <;> cases e2 <;>
      simp [Tracer.WroteRequest, Tracer.addError, hwr, ha]
  · cases e1 <;>
      simp [Tracer.ConnectStart, Tracer.ConnectDone, Tracer.addError, Tracer.Done,
        Tracer.connectingD, hcs, hcd, ha, hc]
  · intro s hs
    simp [Tracer.ConnectStart, hs]
  · intro s hs
    cases e2 <;> simp [Tracer.ConnectDone, Tracer.addError, hs]
  · intro s hs
    cases e2 <;> simp [Tracer.WroteRequest, Tracer.addError, hs]

/-- Witness for C5: first calls at time 3, second calls at time 7 on the
fresh recorder; the stored timestamps stay 3, and with connect-done at 9
the derived Connecting phase is 9 - 3 = 6. -/
theorem first_write_wins_witness :
    ((Tracer.init.ConnectStart 3).ConnectStart 7).connectStart = 3 ∧
    ((Tracer.init.ConnectDone 3 none).ConnectDone 7 none).connectDone = 3 ∧
    ((Tracer.init.WroteRequest 3 none).WroteRequest 7 none).wroteRequest = 3 ∧
    ((((Tracer.init.ConnectStart 3).ConnectStart 7).ConnectDone 9 none).Done 20).connecting = 6 := by
  have h := first_write_wins Tracer.init 3 7 9 20 none none rfl rfl rfl
    (by decide) (by decide)
  exact ⟨h.1, h.2.1, h.2.2.1, h.2.2.2.1.trans (by decide)⟩

/-- C7: ConnectDone, TLSHandshakeDone and WroteRequest with a non-null
error append exactly that error at the end of the error collection, for
every recorder state — in particular also when the timestamp write is a
first-write-wins no-op — and with a null error the collection is
unchanged; the collection only ever grows, in call order. -/
theorem errors_always_recorded (t : Tracer) (tnow : Int) (e : Err) :
    (t.ConnectDone tnow (some e)).protoErrors = t.protoErrors ++ [e] ∧
    (t.TLSHandshakeDone tnow (some e)).protoErrors = t.protoErrors ++ [e] ∧
    (t.WroteRequest tnow (some e)).protoErrors = t.protoErrors ++ [e] ∧
    (t.ConnectDone tnow none).protoErrors = t.protoErrors ∧
    (t.TLSHandshakeDone tnow none).protoErrors = t.protoErrors ∧
    (t.WroteRequest tnow none).protoErrors = t.protoErrors := by
  refine ⟨?_, ?_, ?_, ?_, ?_, ?_⟩ <;>
    simp [Tracer.ConnectDone, Tracer.TLSHandshakeDone, Tracer.WroteRequest,
      Tracer.addError]

/-- C10: for the single-call-by-contract hooks (GetConn,
TLSHandshakeStart, TLSHandshakeDone, GotConn, GotFirstResponseByte) a
repeated invocation unconditionally overwrites the stored timestamp, so
the last call wins. -/
theorem single_call_last_write_wins (t : Tracer) (ta tb : Int) (e1 e2 : Option Err)
    (i1 i2 : GotConnInfo) :
    ((t.GetConn ta).GetConn tb).getConn = tb ∧
    ((t.TLSHandshakeStart ta).TLSHandshakeStart tb).tlsHandshakeStart = tb ∧
    ((t.TLSHandshakeDone ta e1).TLSHandshakeDone tb e2).tlsHandshakeDone = tb ∧
    ((t.GotConn ta i1).GotConn tb i2).gotConn = tb ∧
    ((t.GotFirstResponseByte ta).GotFirstResponseByte tb).gotFirstResponseByte = tb := by
  refine ⟨rfl, rfl, ?_, ?_, rfl⟩
  · cases e1 <;> cases e2 <;> rfl
  · simp only [Tracer.GotConn]
    split <;> rfl

/-- Lifecycle-consistent recorder states: every fired event (nonzero
field) carries a nonnegative timestamp, fired events respect the HTTP
lifecycle order documented in the hook comments, and Done is called no
earlier than the first response byte. Unfired events keep the
sentinel 0. -/
def Tracer.wellOrdered (t : Tracer) (done : Int) : Prop :=
  0 ≤ t.getConn ∧ 0 ≤ t.connectStart ∧ 0 ≤ t.connectDone ∧
  0 ≤ t.tlsHandshakeStart ∧ 0 ≤ t.tlsHandshakeDone ∧ 0 ≤ t.gotConn ∧
  0 ≤ t.wroteRequest ∧ 0 ≤ t.gotFirstResponseByte ∧
  (t.getConn = 0 ∨ t.gotConn = 0 ∨ t.getConn ≤ t.gotConn) ∧
  (t.connectStart = 0 ∨ t.connectDone = 0 ∨ t.connectStart ≤ t.connectDone) ∧
  (t.tlsHandshakeStart = 0 ∨ t.tlsHandshakeDone = 0 ∨
    t.tlsHandshakeStart ≤ t.tlsHandshakeDone) ∧
  (t.connectDone = 0 ∨ t.wroteRequest = 0 ∨ t.connectDone ≤ t.wroteRequest) ∧
  (t.tlsHandshakeDone = 0 ∨ t.wroteRequest = 0 ∨ t.tlsHandshakeDone ≤ t.wroteRequest) ∧
  (t.wroteRequest = 0 ∨ t.gotFirstResponseByte = 0 ∨
    t.wroteRequest ≤ t.gotFirstResponseByte) ∧
  (t.gotFirstResponseByte = 0 ∨ t.gotFirstResponseByte ≤ done)

instance (t : Tracer) (done : Int) : Decidable (t.wellOrdered done) := by
  unfold Tracer.wellOrdered; infer_instance

/-- A plaintext fresh-connection run with connect-done (a single event)
missing: connection-requested at 1, connect-started at 1,
connection-obtained at 11 (not reused), request-written at 12,
first-response-byte at 50. -/
def missingConnectDone : Tracer :=
  ((((Tracer.init.GetConn 1).ConnectStart 1).GotConn 11
    ⟨false, "addr1"⟩).WroteRequest 12 none).GotFirstResponseByte 50

/-- C3 counterexample: in the run missing only the connect-done event,
Sending's base inputs (tls-done and connect-done) were never observed,
yet Done at time 60 yields Sending = 12, not the claimed zero. -/
theorem phase_zero_cex :
    missingConnectDone.connectDone = 0 ∧ missingConnectDone.tlsHandshakeDone = 0 ∧
    missingConnectDone.wellOrdered 60 ∧
    (missingConnectDone.Done 60).sending = 12 ∧
    (missingConnectDone.Done 60).sending ≠ 0 := by decide

/-- C3 amended: for every lifecycle-consistent recorder state (any
subset of events fired, in particular any single event missing), Done
always returns a Trail in which all six phase durations are nonnegative;
blocked, connecting, tlsHandshaking are zero when either of their events
was not observed, sending and waiting are zero when request-written was
not observed, waiting and receiving are zero when first-response-byte
was not observed — but when request-written is observed while both
tls-done and connect-done are unset, sending equals the raw
request-written timestamp instead of zero. -/
theorem phase_nonneg_zero_amended (t : Tracer) (d : Int) (h : t.wellOrdered d) :
    (0 ≤ (t.Done d).blocked ∧ 0 ≤ (t.Done d).connecting ∧
      0 ≤ (t.Done d).tlsHandshaking ∧ 0 ≤ (t.Done d).sending ∧
      0 ≤ (t.Done d).waiting ∧ 0 ≤ (t.Done d).receiving) ∧
    ((t.getConn = 0 ∨ t.gotConn = 0) → (t.Done d).blocked = 0) ∧
    ((t.connectStart = 0 ∨ t.connectDone = 0) → (t.Done d).connecting = 0) ∧
    ((t.tlsHandshakeStart = 0 ∨ t.tlsHandshakeDone = 0) →
      (t.Done d).tlsHandshaking = 0) ∧
    (t.wroteRequest = 0 → (t.Done d).sending = 0 ∧ (t.Done d).waiting = 0) ∧
    (t.gotFirstResponseByte = 0 → (t.Done d).waiting = 0 ∧ (t.Done d).receiving = 0) ∧
    (t.wroteRequest ≠ 0 → t.tlsHandshakeDone = 0 → t.connectDone = 0 →
      (t.Done d).sending = t.wroteRequest) := by
  obtain ⟨h1, h2, h3, h4, h5, h6, h7, h8, h9, h10, h11, h12, h13, h14, h15⟩ := h
  refine ⟨⟨?_, ?_, ?_, ?_, ?_, ?_⟩, ?_, ?_, ?_, ?_, ?_, ?_⟩
  · show 0 ≤ t.blockedD
    rw [Tracer.blockedD]; split_ifs with hcond <;> omega
  · show 0 ≤ t.connectingD
    rw [Tracer.connectingD]; split_ifs with hcond <;> omega
  · show 0 ≤ t.tlsHandshakingD
    rw [Tracer.tlsHandshakingD]; split_ifs with hcond <;> omega
  · show 0 ≤ t.sendingD
    rw [Tracer.sendingD]; split_ifs with hcond hcond2 <;> omega
  · show 0 ≤ t.waitingD
    rw [Tracer.waitingD]; split_ifs with hcond hcond2 <;> omega
  · show 0 ≤ t.receivingD d
    rw [Tracer.receivingD]; split_ifs with hcond <;> omega
  · intro h0
    show t.blockedD = 0
    rw [Tracer.blockedD]; split_ifs with hcond <;> omega
  · intro h0
    show t.connectingD = 0
    rw [Tracer.connectingD]; split_ifs with hcond <;> omega
  · intro h0
    show t.tlsHandshakingD = 0
    rw [Tracer.tlsHandshakingD]; split_ifs with hcond <;> omega
  · intro h0
    constructor
    · show t.sendingD = 0
      rw [Tracer.sendingD]; split_ifs with hcond hcond2 <;> omega
    · show t.waitingD = 0
      rw [Tracer.waitingD]; split_ifs with hcond hcond2 <;> omega
  · intro h0
    constructor
    · show t.waitingD = 0
      rw [Tracer.waitingD]; split_ifs with hcond hcond2 <;> omega
    · show t.receivingD d = 0
      rw [Tracer.receivingD]; split_ifs with hcond <;> omega
  · intro hw ht hc2
    show t.sendingD = t.wroteRequest
    rw [Tracer.sendingD]; split_ifs with hcond <;> omega

/-- A plaintext fresh-connection run with every event present:
connection-requested at 1, connect-started at 2, connect-done at 3,
connection-obtained at 4 (not reused), request-written at 5,
first-response-byte at 6. -/
def allEvents : Tracer :=
  (((((Tracer.init.GetConn 1).ConnectStart 2).ConnectDone 3 none).GotConn 4
    ⟨false, "addr2"⟩).WroteRequest 5 none).GotFirstResponseByte 6

/-- Witness for C3 at the concrete allEvents state with Done at time 7. -/
theorem phase_nonneg_zero_amended_witness :
    (0 ≤ (allEvents.Done 7).blocked ∧ 0 ≤ (allEvents.Done 7).connecting ∧
      0 ≤ (allEvents.Done 7).tlsHandshaking ∧ 0 ≤ (allEvents.Done 7).sending ∧
      0 ≤ (allEvents.Done 7).waiting ∧ 0 ≤ (allEvents.Done 7).receiving) ∧
    ((allEvents.getConn = 0 ∨ allEvents.gotConn = 0) → (allEvents.Done 7).blocked = 0) ∧
    ((allEvents.connectStart = 0 ∨ allEvents.connectDone = 0) →
      (allEvents.Done 7).connecting = 0) ∧
    ((allEvents.tlsHandshakeStart = 0 ∨ allEvents.tlsHandshakeDone = 0) →
      (allEvents.Done 7).tlsHandshaking = 0) ∧
    (allEvents.wroteRequest = 0 →
      (allEvents.Done 7).sending = 0 ∧ (allEvents.Done 7).waiting = 0) ∧
    (allEvents.gotFirstResponseByte = 0 →
      (allEvents.Done 7).waiting = 0 ∧ (allEvents.Done 7).receiving = 0) ∧
    (allEvents.wroteRequest ≠ 0 → allEvents.tlsHandshakeDone = 0 →
      allEvents.connectDone = 0 → (allEvents.Done 7).sending = allEvents.wroteRequest) :=
  phase_nonneg_zero_amended allEvents 7 (by decide)

/-- Modelled from the spec: the fixed metric identities of the external
metrics package referenced by Samples (metrics.HTTPReqs and friends are
registered outside this core); the spec fixes exactly these eight names:
request count, request duration, blocked, connecting, sending, waiting,
receiving, TLS handshaking. -/
inductive Metric where
  | HTTPReqs
  | HTTPReqDuration
  | HTTPReqBlocked
  | HTTPReqConnecting
  | HTTPReqSending
  | HTTPReqWaiting
  | HTTPReqReceiving
  | HTTPReqTLSHandshaking

/-- Modelled from the spec: the external stats package's conversion of a
nanosecond duration into the numeric sample value (stats.D, outside this
core); the claims only use that the request-count sample carries the
literal value 1. -/
def D (d : Int) : ℚ := (d : ℚ) / 1000000

/-- Modelled from the spec: an external stats.Sample tuple — metric
name, timestamp, tag mapping, numeric value. -/
structure Sample where
  metric : Metric
  time : Int
  tags : List (String × String)
  value : ℚ

/-- Samples (tracer.go lines 57-68): the pre-calculated sample values
for the request, in the fixed source order. -/
def Trail.Samples (tr : Trail) (tags : List (String × String)) : List Sample :=
  [ ⟨Metric.HTTPReqs, tr.endTime, tags, 1⟩,
    ⟨Metric.HTTPReqDuration, tr.endTime, tags, D tr.duration⟩,
    ⟨Metric.HTTPReqBlocked, tr.endTime, tags, D tr.blocked⟩,
    ⟨Metric.HTTPReqConnecting, tr.endTime, tags, D tr.connecting⟩,
    ⟨Metric.HTTPReqSending, tr.endTime, tags, D tr.sending⟩,
    ⟨Metric.HTTPReqWaiting, tr.endTime, tags, D tr.waiting⟩,
    ⟨Metric.HTTPReqReceiving, tr.endTime, tags, D tr.receiving⟩,
    ⟨Metric.HTTPReqTLSHandshaking, tr.endTime, tags, D tr.tlsHandshaking⟩ ]

/-- C8: for every Trail and tag mapping, Samples returns exactly eight
samples, in the fixed order request count (value 1), request duration,
blocked, connecting, sending, waiting, receiving, TLS handshaking, each
stamped with the Trail's EndTime and carrying the identical tag mapping;
it is a pure function of its arguments, with no other effect. -/
theorem samples_fixed_sequence (tr : Trail) (tags : List (String × String)) :
    (tr.Samples tags).map Sample.metric =
      [Metric.HTTPReqs, Metric.HTTPReqDuration, Metric.HTTPReqBlocked,
        Metric.HTTPReqConnecting, Metric.HTTPReqSending, Metric.HTTPReqWaiting,
        Metric.HTTPReqReceiving, Metric.HTTPReqTLSHandshaking] ∧
    (tr.Samples tags).map Sample.value =
      [1, D tr.duration, D tr.blocked, D tr.connecting, D tr.sending,
        D tr.waiting, D tr.receiving, D tr.tlsHandshaking] ∧
    (tr.Samples tags).length = 8 ∧
    ∀ s ∈ tr.Samples tags, s.time = tr.endTime ∧ s.tags = tags := by
  refine ⟨rfl, rfl, rfl, ?_⟩
  intro s hs
  simp only [Trail.Samples, List.mem_cons, List.not_mem_nil, or_false] at hs
  rcases hs with h | h | h | h | h | h | h | h <;> subst h <;> exact ⟨rfl, rfl⟩

/-- The Trail of the zero-value recorder completed at time 5, used to
instantiate the Samples theorem at a concrete input. -/
def trailX : Trail := Tracer.init.Done 5

/-- Witness for C8 at the concrete trailX and a one-entry tag mapping. -/
theorem samples_fixed_sequence_witness :
    (trailX.Samples [("k", "v")]).length = 8 ∧
    (trailX.Samples [("k", "v")]).map Sample.metric =
      [Metric.HTTPReqs, Metric.HTTPReqDuration, Metric.HTTPReqBlocked,
        Metric.HTTPReqConnecting, Metric.HTTPReqSending, Metric.HTTPReqWaiting,
        Metric.HTTPReqReceiving, Metric.HTTPReqTLSHandshaking] :=
  ⟨(samples_fixed_sequence trailX [("k", "v")]).2.2.1,
    (samples_fixed_sequence trailX [("k", "v")]).1⟩

/-- One millisecond in the nanosecond resolution of the timestamps. -/
def ms : Int := 1000000

/-- Scenario A (plaintext, fresh connection): connection-requested at
t0, connect-started at t0, connect-done at t0 + 10ms,
connection-obtained at t0 + 10ms with reused = false, request-written at
t0 + 11ms, first-response-byte at t0 + 50ms, Done called at t0 + 60ms. -/
def scenarioA (t0 : Int) : Trail :=
  ((((((Tracer.init.GetConn t0).ConnectStart t0).ConnectDone (t0 + 10 * ms)
    none).GotConn (t0 + 10 * ms) ⟨false, "addr3"⟩).WroteRequest (t0 + 11 * ms)
    none).GotFirstResponseByte (t0 + 50 * ms)).Done (t0 + 60 * ms)

/-- C9 counterexample: at the concrete start time 1000000000 (one second
past the epoch, so every timestamp is nonzero), Scenario A yields
Blocked = connection-obtained - connection-requested = 10ms, not the
claimed 0. -/
theorem scenarioA_blocked_cex :
    (scenarioA 1000000000).blocked = 10 * ms ∧
    (scenarioA 1000000000).blocked ≠ 0 := by decide

/-- C9 amended: for every positive start time t0, Scenario A yields
blocked = 10ms (connection-obtained minus connection-requested, both
set), connecting = 10ms, tlsHandshaking = 0, sending = 1ms,
waiting = 39ms, receiving = 10ms, duration = 50ms. -/
theorem scenarioA_amended (t0 : Int) (h : 0 < t0) :
    (scenarioA t0).blocked = 10 * ms ∧ (scenarioA t0).connecting = 10 * ms ∧
    (scenarioA t0).tlsHandshaking = 0 ∧ (scenarioA t0).sending = 1 * ms ∧
    (scenarioA t0).waiting = 39 * ms ∧ (scenarioA t0).receiving = 10 * ms ∧
    (scenarioA t0).duration = 50 * ms := by
  have hms : ms = 1000000 := rfl
  simp only [scenarioA, Tracer.init, Tracer.GetConn, Tracer.ConnectStart,
    Tracer.ConnectDone, Tracer.GotConn, Tracer.WroteRequest,
    Tracer.GotFirstResponseByte, Tracer.Done, Tracer.blockedD, Tracer.connectingD,
    Tracer.tlsHandshakingD, Tracer.sendingD, Tracer.waitingD, Tracer.receivingD,
    Tracer.durationD, hms]
  norm_num
  refine ⟨?_, ?_, ?_, ?_, ?_⟩ <;> omega

/-- Witness for C9 at the concrete start time 1000000000. -/
theorem scenarioA_amended_witness :
    (scenarioA 1000000000).blocked = 10 * ms ∧
    (scenarioA 1000000000).connecting = 10 * ms ∧
    (scenarioA 1000000000).tlsHandshaking = 0 ∧
    (scenarioA 1000000000).sending = 1 * ms ∧
    (scenarioA 1000000000).waiting = 39 * ms ∧
    (scenarioA 1000000000).receiving = 10 * ms ∧
    (scenarioA 1000000000).duration = 50 * ms :=
  scenarioA_amended 1000000000 (by decide)
